import Mathlib

/-!
Verification development for the aitarget-api-func Azure Functions app
(src/function_app.py). The file shallowly embeds the request handlers and
their helpers as pure Lean functions: database tables become lists of
records, query execution becomes list filtering/ordering, and outbound
HTTP effects are recorded explicitly so that frame conditions can be
stated. Machine integers in the source are plain Python ints, so they are
embedded as Lean Int with no wrap-around.
-/

namespace AitargetApiFunc

/-- JSON scalar values appearing in response bodies (the handlers emit
only strings and numbers in their bodies). -/
inductive JVal where
  | s (v : String)
  | i (v : Int)
deriving DecidableEq

/-- An HTTP response: status code plus a JSON-object body given as an
ordered list of key/value pairs, mirroring json.dumps of a dict. -/
structure HttpResponse where
  status_code : Nat
  body : List (String × JVal)
deriving DecidableEq

/-- A query-string or body field that should hold a number: it can be
absent, present and parseable as a number, or present but not numeric
(where Python int() raises). -/
inductive NumField where
  | absent
  | num (n : Int)
  | notNum
deriving DecidableEq

/-- int(payload.get(key, default)): absent fields yield the default,
numeric fields their value, non-numeric fields raise (modelled as none). -/
def parseNumField (f : NumField) (default : Int) : Option Int :=
  match f with
  | .absent => some default
  | .num n => some n
  | .notNum => none

/-- Embeds _clamp_limit from function_app.py: int(value) failing gives
the default, otherwise max(1, min(max_limit, num)). The value argument is
the result of attempting int(): none when int() raises. -/
def _clamp_limit (value : Option Int) (default : Int) (max_limit : Int) : Int :=
  match value with
  | none => default
  | some num => max 1 (min max_limit num)

/-- The limit a row-query handler actually uses: every caller passes
req.params.get with fallback 200, so an absent parameter feeds the
integer 200 into _clamp_limit and a present one feeds its parse result. -/
def effectiveLimit (limitParam : Option NumField) : Int :=
  match limitParam with
  | none => _clamp_limit (some 200) 200 2000
  | some f => _clamp_limit (parseNumField f 200) 200 2000

/-- A row of the feature_candidates table. -/
structure Candidate where
  candidate_id : String
  type : String
  source : String
  name_proposed : String
  description_proposed : String
  logic_proposed : String
  status : String
  created_at : Int
  updated_at : Int
deriving DecidableEq

/-- A row of the tag_definitions table (SQL bit columns kept as Int 0/1,
matching the literal parameters 0 and 1 bound by the INSERT). -/
structure TagDefinition where
  tag_id : String
  tag_code : String
  tag_name : String
  description : String
  value_type : String
  source_type : String
  is_multi_valued : Int
  is_active : Int
  created_at : Int
  updated_at : Int
deriving DecidableEq

/-- A row of the score_definitions table. -/
structure ScoreDefinition where
  score_id : String
  score_code : String
  score_name : String
  description : String
  min_value : Option Int
  max_value : Option Int
  direction : String
  source_type : String
  refresh_interval : Option Int
  is_active : Int
  created_at : Int
  updated_at : Int
deriving DecidableEq

/-- The database state the handlers touch. -/
structure Db where
  feature_candidates : List Candidate
  tag_definitions : List TagDefinition
  score_definitions : List ScoreDefinition
deriving DecidableEq

/-- A write statement issued against the database, recorded so frame
conditions about inserts can be stated. -/
inductive DbWrite where
  | updateCandidateStatus (candidate_id status : String) (updated_at : Int)
  | insertTag (t : TagDefinition)
  | insertScore (s : ScoreDefinition)
deriving DecidableEq

/-- The JSON body of a POST /api/updateFeatureCandidate request:
payload.get returns none for a missing key. -/
structure UpdatePayload where
  candidate_id : Option String
  action : Option String
deriving DecidableEq

/-- Python truthiness of payload.get("candidate_id"): None and the empty
string are falsy. -/
def truthy : Option String → Bool
  | none => false
  | some s => s ≠ ""

/-- Effect of UPDATE feature_candidates SET status, updated_at WHERE
candidate_id = ?. -/
def applyUpdateStatus (db : Db) (cid status : String) (now : Int) : Db :=
  { db with feature_candidates := db.feature_candidates.map fun c =>
      if c.candidate_id == cid then { c with status := status, updated_at := now } else c }

/-- SELECT ... FROM feature_candidates WHERE candidate_id = ?, then
rows[0]: the first matching row, none when the result set is empty. -/
def selectCandidate (db : Db) (cid : String) : Option Candidate :=
  (db.feature_candidates.filter (fun c => c.candidate_id == cid)).head?

/-- The row bound by the INSERT INTO tag_definitions statement. -/
def mkTagDefinition (c : Candidate) (now : Int) : TagDefinition :=
  { tag_id := c.candidate_id
    tag_code := c.name_proposed
    tag_name := c.name_proposed
    description := c.description_proposed
    value_type := "string"
    source_type := "llm"
    is_multi_valued := 0
    is_active := 1
    created_at := now
    updated_at := now }

/-- The row bound by the INSERT INTO score_definitions statement. -/
def mkScoreDefinition (c : Candidate) (now : Int) : ScoreDefinition :=
  { score_id := c.candidate_id
    score_code := c.name_proposed
    score_name := c.name_proposed
    description := c.description_proposed
    min_value := none
    max_value := none
    direction := "higher_is_better"
    source_type := "llm"
    refresh_interval := none
    is_active := 1
    created_at := now
    updated_at := now }

/-- Outcome of one updateFeatureCandidate invocation: the HTTP response,
the write statements issued, and the database afterwards. -/
structure UpdateResult where
  response : HttpResponse
  writes : List DbWrite
  db : Db
deriving DecidableEq

/-- Embeds update_feature_candidate from function_app.py on its
non-exceptional paths. The payload argument is none when req.get_json()
raises (invalid JSON). -/
def update_feature_candidate (payload : Option UpdatePayload) (now : Int) (db : Db) :
    UpdateResult :=
  match payload with
  | none => ⟨⟨400, [("message", .s "Invalid JSON")]⟩, [], db⟩
  | some p =>
    if truthy p.candidate_id = false ∨ (p.action ≠ some "adopt" ∧ p.action ≠ some "reject") then
      ⟨⟨400, [("message", .s "candidate_id and action are required.")]⟩, [], db⟩
    else
      let cid := p.candidate_id.getD ""
      let next_status := if p.action = some "adopt" then "adopted" else "rejected"
      let db1 := applyUpdateStatus db cid next_status now
      let w1 := [DbWrite.updateCandidateStatus cid next_status now]
      if next_status ≠ "adopted" then
        ⟨⟨200, [("candidate_id", .s cid), ("status", .s next_status)]⟩, w1, db1⟩
      else
        match selectCandidate db1 cid with
        | none => ⟨⟨404, [("message", .s "Candidate not found.")]⟩, w1, db1⟩
        | some c =>
          if c.type = "tag" then
            let t := mkTagDefinition c now
            ⟨⟨200, [("candidate_id", .s cid), ("status", .s next_status)]⟩,
              w1 ++ [DbWrite.insertTag t],
              { db1 with tag_definitions := db1.tag_definitions ++ [t] }⟩
          else if c.type = "score" then
            let sd := mkScoreDefinition c now
            ⟨⟨200, [("candidate_id", .s cid), ("status", .s next_status)]⟩,
              w1 ++ [DbWrite.insertScore sd],
              { db1 with score_definitions := db1.score_definitions ++ [sd] }⟩
          else
            ⟨⟨200, [("candidate_id", .s cid), ("status", .s next_status)]⟩, w1, db1⟩

/-- Body of a POST /api/generateTagCandidates request: the three numeric
fields plus the remaining (non-reserved) key/value items of the dict. -/
structure GenPayload where
  sample_size : NumField
  max_candidates : NumField
  min_candidates : NumField
  extra : List (String × String)
deriving DecidableEq

/-- The keys set in notebook_payload before the pass-through loop, so the
loop skips caller-supplied fields with these names. -/
def reservedKeys : List String := ["sample_size", "max_candidates", "min_candidates"]

/-- The JSON payload POSTed to the Fabric notebook job endpoint by
_call_fabric_notebook. -/
structure NotebookPayload where
  sample_size : Int
  max_candidates : Int
  min_candidates : Int
  extra : List (String × String)
deriving DecidableEq

/-- Embeds generate_tag_candidates from function_app.py. body is none
when req.get_json() raises or yields a falsy value (both give an empty
payload dict). upstream abstracts _call_fabric_notebook: error e when it
raises (missing configuration, token failure, ...), ok (status, text)
when the trigger POST returns. The second component of the result lists
the notebook payloads _call_fabric_notebook was invoked with. -/
def generate_tag_candidates (body : Option GenPayload)
    (upstream : Except String (Nat × String)) : HttpResponse × List NotebookPayload :=
  let payload := body.getD ⟨.absent, .absent, .absent, []⟩
  match parseNumField payload.sample_size 1000, parseNumField payload.max_candidates 10,
      parseNumField payload.min_candidates 3 with
  | some ss, some mx, some mn =>
    let sample_size := max 1 (min 5000 ss)
    let max_candidates := max 1 (min 10 mx)
    let min_candidates := max 1 (min max_candidates mn)
    let np : NotebookPayload :=
      ⟨sample_size, max_candidates, min_candidates,
        payload.extra.filter (fun kv => !(reservedKeys.contains kv.1))⟩
    match upstream with
    | .error e => (⟨500, [("message", .s e)]⟩, [np])
    | .ok (status, text) =>
      if status = 200 ∨ status = 201 ∨ status = 202 then
        (⟨200, [("message", .s "Fabric notebook triggered."),
                ("upstream_status", .i status), ("upstream_response", .s text)]⟩, [np])
      else
        (⟨502, [("message", .s "Failed to trigger Fabric notebook."),
                ("status_code", .i status), ("response", .s text)]⟩, [np])
  | _, _, _ =>
    (⟨400, [("message", .s "sample_size, max_candidates, min_candidates must be numbers.")]⟩,
      [])

/-- Every JSON body emitted on a non-2xx path of the six handlers, as
(handler, status code, body keys in source order): transcribed from each
json.dumps call in an error branch of function_app.py. The two 400
entries for updateFeatureCandidate are the invalid-JSON and the
missing-field responses. -/
def errorResponseShapes : List (String × Nat × List String) :=
  [("getFeatureCandidates", 500, ["message", "endpoint"]),
   ("updateFeatureCandidate", 400, ["message"]),
   ("updateFeatureCandidate", 400, ["message"]),
   ("updateFeatureCandidate", 404, ["message"]),
   ("updateFeatureCandidate", 500, ["message"]),
   ("getTagDefinitions", 500, ["message"]),
   ("getScoreDefinitions", 500, ["message"]),
   ("getAccountTags", 500, ["message"]),
   ("getAccountScores", 500, ["message"]),
   ("generateTagCandidates", 400, ["message"]),
   ("generateTagCandidates", 502, ["message", "status_code", "response"]),
   ("generateTagCandidates", 500, ["message"])]

/-- The SELECT statement assembled by _fetch_table_rows, in structured
form: TOP (limit) * FROM table WHERE whereParts ORDER BY orderColumn
DESC. -/
structure SqlQuery where
  limit : Int
  table : String
  whereParts : List (String × String)
  orderColumn : Option String
deriving DecidableEq

/-- Priority order of the ORDER BY probe in _fetch_table_rows. -/
def orderCandidates : List String := ["evaluated_at", "updated_at", "created_at"]

/-- Embeds _fetch_table_rows from function_app.py up to query execution:
available_columns is the result of the zero-row probe, reqParams the
query string, limitParam the parse status of the limit parameter. A
filter contributes a WHERE part only when its value is present and its
column exists. -/
def _fetch_table_rows (table_name : String) (reqParams : String → Option String)
    (limitParam : Option NumField) (filterable : List (String × String))
    (available_columns : List String) : SqlQuery :=
  { limit := effectiveLimit limitParam
    table := table_name
    whereParts := filterable.filterMap fun qc =>
      match reqParams qc.1 with
      | none => none
      | some v => if available_columns.contains qc.2 then some (qc.2, v) else none
    orderColumn := orderCandidates.find? (fun c => available_columns.contains c) }

/-- The columns projected by the getFeatureCandidates SELECT (all of the
candidate row except updated_at). -/
structure FeatureCandidateRow where
  candidate_id : String
  type : String
  source : String
  name_proposed : String
  description_proposed : String
  logic_proposed : String
  status : String
  created_at : Int
deriving DecidableEq

/-- Projection of a stored candidate onto the selected columns. -/
def candidateRow (c : Candidate) : FeatureCandidateRow :=
  ⟨c.candidate_id, c.type, c.source, c.name_proposed, c.description_proposed,
    c.logic_proposed, c.status, c.created_at⟩

/-- Insertion step of the ORDER BY created_at DESC model. -/
def insertByCreatedAtDesc (c : Candidate) : List Candidate → List Candidate
  | [] => [c]
  | x :: xs =>
    if x.created_at ≤ c.created_at then c :: x :: xs else x :: insertByCreatedAtDesc c xs

/-- ORDER BY created_at DESC, modelled as an insertion sort. -/
def sortByCreatedAtDesc : List Candidate → List Candidate
  | [] => []
  | x :: xs => insertByCreatedAtDesc x (sortByCreatedAtDesc xs)

/-- Embeds get_feature_candidates from function_app.py on its
non-exceptional path: SELECT TOP (100) the listed columns FROM
feature_candidates WHERE type = ? AND status = ? ORDER BY created_at
DESC, with both parameters defaulted from the query string. -/
def get_feature_candidates (reqParams : String → Option String) (db : Db) :
    List FeatureCandidateRow :=
  let type_param := (reqParams "type").getD "behavior_feature"
  let status_param := (reqParams "status").getD "new"
  ((sortByCreatedAtDesc (db.feature_candidates.filter
      (fun c => c.type == type_param && c.status == status_param))).take 100).map candidateRow

@[simp]
theorem applyUpdateStatus_tag_defs (db : Db) (cid status : String) (now : Int) :
    (applyUpdateStatus db cid status now).tag_definitions = db.tag_definitions := rfl

@[simp]
theorem applyUpdateStatus_score_defs (db : Db) (cid status : String) (now : Int) :
    (applyUpdateStatus db cid status now).score_definitions = db.score_definitions := rfl

theorem selectCandidate_applyUpdateStatus (db : Db) (cid status : String) (now : Int) :
    selectCandidate (applyUpdateStatus db cid status now) cid
      = (selectCandidate db cid).map (fun c => { c with status := status, updated_at := now }) := by
  unfold selectCandidate applyUpdateStatus
  induction db.feature_candidates with
  | nil => rfl
  | cons a l ih =>
    by_cases h : a.candidate_id = cid
    · simp [h]
    · simpa [h] using ih

theorem selectCandidate_candidate_id (db : Db) (cid : String) (c : Candidate)
    (h : selectCandidate db cid = some c) : c.candidate_id = cid := by
  unfold selectCandidate at h
  have hc : c ∈ db.feature_candidates.filter (fun x => x.candidate_id == cid) := by
    cases hf : db.feature_candidates.filter (fun x => x.candidate_id == cid) with
    | nil => rw [hf] at h; simp at h
    | cons a t =>
      rw [hf] at h
      simp only [List.head?_cons, Option.some.injEq] at h
      rw [← h]
      exact List.mem_cons_self _ _
  have := (List.mem_filter.mp hc).2
  simpa using this

/-- C1: a call to updateFeatureCandidate with action adopt on a candidate
whose type is tag inserts exactly one row into tag_definitions, whose
tag_id equals the candidate_id and whose fixed default columns are
value_type string, source_type llm, is_multi_valued false, is_active
true. -/
theorem updateFeatureCandidate_adopt_tag_inserts_one
    (db : Db) (cid : String) (now : Int) (c0 : Candidate)
    (hcid : cid ≠ "")
    (hsel : selectCandidate db cid = some c0)
    (htype : c0.type = "tag") :
    ∃ t : TagDefinition,
      (update_feature_candidate (some ⟨some cid, some "adopt"⟩) now db).db.tag_definitions
          = db.tag_definitions ++ [t] ∧
      (update_feature_candidate (some ⟨some cid, some "adopt"⟩) now db).writes
          = [DbWrite.updateCandidateStatus cid "adopted" now, DbWrite.insertTag t] ∧
      t.tag_id = cid ∧ t.value_type = "string" ∧ t.source_type = "llm" ∧
      t.is_multi_valued = 0 ∧ t.is_active = 1 := by
  have hc0 : c0.candidate_id = cid := selectCandidate_candidate_id db cid c0 hsel
  have hsel1 : selectCandidate (applyUpdateStatus db cid "adopted" now) cid
      = some { c0 with status := "adopted", updated_at := now } := by
    rw [selectCandidate_applyUpdateStatus, hsel]
    rfl
  refine ⟨mkTagDefinition { c0 with status := "adopted", updated_at := now } now,
    ?_, ?_, ?_, rfl, rfl, rfl, rfl⟩
  · simp [update_feature_candidate, truthy, hcid, hsel1, htype]
  · simp [update_feature_candidate, truthy, hcid, hsel1, htype]
  · simpa [mkTagDefinition] using hc0

/-- Witness for updateFeatureCandidate_adopt_tag_inserts_one at a
concrete database. -/
theorem updateFeatureCandidate_adopt_tag_inserts_one_witness :
    ∃ t : TagDefinition,
      (update_feature_candidate (some ⟨some "c1", some "adopt"⟩) 7
          ⟨[⟨"c1", "tag", "llm", "n1", "d1", "l1", "new", 1, 1⟩], [], []⟩).db.tag_definitions
          = [] ++ [t] ∧
      (update_feature_candidate (some ⟨some "c1", some "adopt"⟩) 7
          ⟨[⟨"c1", "tag", "llm", "n1", "d1", "l1", "new", 1, 1⟩], [], []⟩).writes
          = [DbWrite.updateCandidateStatus "c1" "adopted" 7, DbWrite.insertTag t] ∧
      t.tag_id = "c1" ∧ t.value_type = "string" ∧ t.source_type = "llm" ∧
      t.is_multi_valued = 0 ∧ t.is_active = 1 :=
  updateFeatureCandidate_adopt_tag_inserts_one
    ⟨[⟨"c1", "tag", "llm", "n1", "d1", "l1", "new", 1, 1⟩], [], []⟩ "c1" 7
    ⟨"c1", "tag", "llm", "n1", "d1", "l1", "new", 1, 1⟩ (by decide) (by decide) rfl

/-- C2: a call to updateFeatureCandidate with action reject never inserts
into tag_definitions or score_definitions, for any candidate_id; when the
candidate_id is truthy it returns status 200 with the new status
rejected, its only write being the status update. -/
theorem updateFeatureCandidate_reject_no_inserts
    (cidOpt : Option String) (now : Int) (db : Db) :
    (update_feature_candidate (some ⟨cidOpt, some "reject"⟩) now db).db.tag_definitions
        = db.tag_definitions ∧
    (update_feature_candidate (some ⟨cidOpt, some "reject"⟩) now db).db.score_definitions
        = db.score_definitions ∧
    (∀ t, DbWrite.insertTag t ∉
        (update_feature_candidate (some ⟨cidOpt, some "reject"⟩) now db).writes) ∧
    (∀ s, DbWrite.insertScore s ∉
        (update_feature_candidate (some ⟨cidOpt, some "reject"⟩) now db).writes) ∧
    (truthy cidOpt = true →
      (update_feature_candidate (some ⟨cidOpt, some "reject"⟩) now db).response
          = ⟨200, [("candidate_id", .s (cidOpt.getD "")), ("status", .s "rejected")]⟩ ∧
      (update_feature_candidate (some ⟨cidOpt, some "reject"⟩) now db).writes
          = [DbWrite.updateCandidateStatus (cidOpt.getD "") "rejected" now]) := by
  by_cases h : truthy cidOpt = false
  · simp [update_feature_candidate, h]
  · simp only [Bool.not_eq_false] at h
    simp [update_feature_candidate, h, applyUpdateStatus]

/-- Witness for updateFeatureCandidate_reject_no_inserts at a concrete
database. -/
theorem updateFeatureCandidate_reject_no_inserts_witness :
    (update_feature_candidate (some ⟨some "c2", some "reject"⟩) 3 ⟨[], [], []⟩).response
        = ⟨200, [("candidate_id", .s "c2"), ("status", .s "rejected")]⟩ ∧
    DbWrite.insertTag (mkTagDefinition ⟨"c2", "tag", "", "", "", "", "new", 0, 0⟩ 3) ∉
        (update_feature_candidate (some ⟨some "c2", some "reject"⟩) 3 ⟨[], [], []⟩).writes :=
  ⟨((updateFeatureCandidate_reject_no_inserts (some "c2") 3 ⟨[], [], []⟩).2.2.2.2 rfl).1,
    (updateFeatureCandidate_reject_no_inserts (some "c2") 3 ⟨[], [], []⟩).2.2.1 _⟩

/-- C3: a request to updateFeatureCandidate whose body has a missing or
empty candidate_id, or an action outside adopt/reject, returns HTTP 400
with no write and an unchanged database. -/
theorem updateFeatureCandidate_invalid_400_no_write
    (p : UpdatePayload) (now : Int) (db : Db)
    (h : truthy p.candidate_id = false ∨ (p.action ≠ some "adopt" ∧ p.action ≠ some "reject")) :
    (update_feature_candidate (some p) now db).response.status_code = 400 ∧
    (update_feature_candidate (some p) now db).writes = [] ∧
    (update_feature_candidate (some p) now db).db = db := by
  simp only [update_feature_candidate]
  rw [if_pos h]
  exact ⟨rfl, rfl, rfl⟩

/-- Witness for updateFeatureCandidate_invalid_400_no_write: a body with
no candidate_id, and one with an unknown action. -/
theorem updateFeatureCandidate_invalid_400_no_write_witness :
    (update_feature_candidate (some ⟨none, some "adopt"⟩) 0 ⟨[], [], []⟩).response.status_code
        = 400 ∧
    (update_feature_candidate (some ⟨some "c1", some "delete"⟩) 0 ⟨[], [], []⟩).writes = [] :=
  ⟨(updateFeatureCandidate_invalid_400_no_write ⟨none, some "adopt"⟩ 0 ⟨[], [], []⟩
      (Or.inl rfl)).1,
    (updateFeatureCandidate_invalid_400_no_write ⟨some "c1", some "delete"⟩ 0 ⟨[], [], []⟩
      (Or.inr (by decide))).2.1⟩

/-- C6: the effective limit of the row-query endpoints is clamped into
[1, 2000]: values at most 0 become 1, values above 2000 become 2000,
in-range values pass through, and an absent or non-parseable value
becomes the default 200. -/
theorem effectiveLimit_clamped :
    effectiveLimit none = 200 ∧
    effectiveLimit (some .notNum) = 200 ∧
    (∀ n : Int, n ≤ 0 → effectiveLimit (some (.num n)) = 1) ∧
    (∀ n : Int, 2000 < n → effectiveLimit (some (.num n)) = 2000) ∧
    (∀ n : Int, 1 ≤ n → n ≤ 2000 → effectiveLimit (some (.num n)) = n) ∧
    (∀ f, 1 ≤ effectiveLimit (some f) ∧ effectiveLimit (some f) ≤ 2000) := by
  refine ⟨rfl, rfl, ?_, ?_, ?_, ?_⟩
  · intro n hn
    simp only [effectiveLimit, parseNumField, _clamp_limit]
    omega
  · intro n hn
    simp only [effectiveLimit, parseNumField, _clamp_limit]
    omega
  · intro n h1 h2
    simp only [effectiveLimit, parseNumField, _clamp_limit]
    omega
  · intro f
    cases f <;> simp only [effectiveLimit, parseNumField, _clamp_limit] <;> omega

/-- Witness for effectiveLimit_clamped at concrete inputs. -/
theorem effectiveLimit_clamped_witness :
    effectiveLimit (some (.num (-7))) = 1 ∧
    effectiveLimit (some (.num 5000)) = 2000 ∧
    effectiveLimit (some (.num 150)) = 150 ∧
    effectiveLimit none = 200 :=
  ⟨effectiveLimit_clamped.2.2.1 (-7) (by decide),
   effectiveLimit_clamped.2.2.2.1 5000 (by decide),
   effectiveLimit_clamped.2.2.2.2.1 150 (by decide) (by decide),
   effectiveLimit_clamped.1⟩

/-- C4 fails as stated: the 502 upstream-failure response of
generateTagCandidates is a non-2xx response whose body carries the keys
status_code and response beyond message, at the concrete input of an
empty body and an upstream status 500. -/
theorem generateTagCandidates_502_extra_keys :
    (generate_tag_candidates none (.ok (500, "boom"))).1.status_code = 502 ∧
    (generate_tag_candidates none (.ok (500, "boom"))).1.body.map Prod.fst
        = ["message", "status_code", "response"] ∧
    ¬ ((generate_tag_candidates none (.ok (500, "boom"))).1.body.map Prod.fst
        ⊆ ["message", "endpoint"]) := by
  refine ⟨rfl, rfl, ?_⟩
  intro hsub
  have : "status_code" ∈ ["message", "endpoint"] := hsub (by decide)
  simp at this

/-- C4 amended: every error body of the six handlers has only the keys
message and optionally endpoint, except the 502 upstream-failure body of
generateTagCandidates, which carries exactly message, status_code and
response. -/
theorem errorResponseShapes_message_endpoint :
    errorResponseShapes.all (fun e =>
      if e.1 == "generateTagCandidates" && e.2.1 == 502 then
        e.2.2 == ["message", "status_code", "response"]
      else
        e.2.2.all (fun k => k == "message" || k == "endpoint")) = true := by decide

/-- C5: for numeric inputs, the effective min_candidates sent to the
notebook equals max(1, min(effective max_candidates, requested
min_candidates)); in particular max_candidates=5 with min_candidates=8
yields effective min_candidates 5. -/
theorem generateTagCandidates_min_clamped
    (ss mx mn : Int) (ex : List (String × String)) (up : Except String (Nat × String)) :
    ((generate_tag_candidates (some ⟨.num ss, .num mx, .num mn, ex⟩) up).2.map
        NotebookPayload.min_candidates) = [max 1 (min (max 1 (min 10 mx)) mn)] ∧
    ((generate_tag_candidates (some ⟨.num 1000, .num 5, .num 8, []⟩) up).2.map
        NotebookPayload.min_candidates) = [5] := by
  rcases up with e | ⟨st, tx⟩ <;>
    constructor <;>
      simp [generate_tag_candidates, parseNumField] <;>
        split <;> simp

/-- C7: a generateTagCandidates request in which sample_size,
max_candidates or min_candidates is present but not numeric returns HTTP
400 and makes no call to _call_fabric_notebook (hence neither to the
token nor to the notebook-trigger endpoint). -/
theorem generateTagCandidates_nonnumeric_400
    (p : GenPayload) (up : Except String (Nat × String))
    (h : p.sample_size = .notNum ∨ p.max_candidates = .notNum ∨ p.min_candidates = .notNum) :
    (generate_tag_candidates (some p) up).1.status_code = 400 ∧
    (generate_tag_candidates (some p) up).2 = [] := by
  have h' : parseNumField p.sample_size 1000 = none ∨
      parseNumField p.max_candidates 10 = none ∨
      parseNumField p.min_candidates 3 = none := by
    rcases h with h | h | h
    · exact Or.inl (by rw [h]; rfl)
    · exact Or.inr (Or.inl (by rw [h]; rfl))
    · exact Or.inr (Or.inr (by rw [h]; rfl))
  rcases hs : parseNumField p.sample_size 1000 with _ | ss <;>
    rcases hm : parseNumField p.max_candidates 10 with _ | mx <;>
      rcases hn : parseNumField p.min_candidates 3 with _ | mn <;>
        simp_all [generate_tag_candidates]

/-- Witness for generateTagCandidates_nonnumeric_400 at a concrete
payload. -/
theorem generateTagCandidates_nonnumeric_400_witness :
    (generate_tag_candidates (some ⟨.notNum, .absent, .absent, []⟩)
        (.ok (200, "ok"))).1.status_code = 400 ∧
    (generate_tag_candidates (some ⟨.notNum, .absent, .absent, []⟩)
        (.ok (200, "ok"))).2 = [] :=
  generateTagCandidates_nonnumeric_400 ⟨.notNum, .absent, .absent, []⟩ (.ok (200, "ok"))
    (Or.inl rfl)

/-- C10: a generateTagCandidates request with a missing or unparseable
JSON body is treated as an empty payload: the notebook is triggered with
the defaults sample_size=1000, max_candidates=10, min_candidates=3 and
the response is never a 400. -/
theorem generateTagCandidates_invalid_body_defaults (up : Except String (Nat × String)) :
    (generate_tag_candidates none up).2 = [⟨1000, 10, 3, []⟩] ∧
    (generate_tag_candidates none up).1.status_code ≠ 400 := by
  rcases up with e | ⟨st, tx⟩ <;>
    constructor <;>
      simp [generate_tag_candidates, parseNumField] <;>
        split <;> simp

/-- C8: a filter whose mapped column is absent from the probed column
list contributes nothing to the WHERE clause, while every filter with a
present value and an existing column is kept, and the query is still
built over the remaining filters. -/
theorem fetchTableRows_drops_unknown_filters
    (table_name : String) (reqParams : String → Option String) (limitParam : Option NumField)
    (filterable : List (String × String)) (available_columns : List String) :
    (∀ col, col ∉ available_columns →
      col ∉ (_fetch_table_rows table_name reqParams limitParam filterable
          available_columns).whereParts.map Prod.fst) ∧
    (∀ qp col v, (qp, col) ∈ filterable → reqParams qp = some v → col ∈ available_columns →
      (col, v) ∈ (_fetch_table_rows table_name reqParams limitParam filterable
          available_columns).whereParts) := by
  constructor
  · intro col hcol hmem
    simp only [_fetch_table_rows, List.mem_map, List.mem_filterMap] at hmem
    obtain ⟨⟨c, v⟩, ⟨⟨qp, col'⟩, -, hf⟩, hfst⟩ := hmem
    rcases hq : reqParams qp with _ | w <;> rw [hq] at hf
    · exact absurd hf (by simp)
    · simp at hf
      obtain ⟨hmem', hc, -⟩ := hf
      have hcc : c = col := hfst
      rw [hc, hcc] at hmem'
      exact hcol hmem'
  · intro qp col v hmemf hval hcol
    simp only [_fetch_table_rows, List.mem_filterMap]
    exact ⟨(qp, col), hmemf, by simp [hval, hcol]⟩

/-- Witness for fetchTableRows_drops_unknown_filters on the
account_scores endpoint shape with one unknown and one known column. -/
theorem fetchTableRows_drops_unknown_filters_witness :
    "score_id" ∉ (_fetch_table_rows "account_scores"
        (fun k => if k == "account_id" then some "a1"
          else if k == "score_id" then some "s1" else none)
        none [("account_id", "account_id"), ("score_id", "score_id")]
        ["account_id", "evaluated_at"]).whereParts.map Prod.fst ∧
    ("account_id", "a1") ∈ (_fetch_table_rows "account_scores"
        (fun k => if k == "account_id" then some "a1"
          else if k == "score_id" then some "s1" else none)
        none [("account_id", "account_id"), ("score_id", "score_id")]
        ["account_id", "evaluated_at"]).whereParts :=
  ⟨(fetchTableRows_drops_unknown_filters "account_scores"
      (fun k => if k == "account_id" then some "a1"
        else if k == "score_id" then some "s1" else none)
      none [("account_id", "account_id"), ("score_id", "score_id")]
      ["account_id", "evaluated_at"]).1 "score_id" (by decide),
    (fetchTableRows_drops_unknown_filters "account_scores"
      (fun k => if k == "account_id" then some "a1"
        else if k == "score_id" then some "s1" else none)
      none [("account_id", "account_id"), ("score_id", "score_id")]
      ["account_id", "evaluated_at"]).2 "account_id" "account_id" "a1"
      (by decide) rfl (by decide)⟩

theorem length_insertByCreatedAtDesc (c : Candidate) (l : List Candidate) :
    (insertByCreatedAtDesc c l).length = l.length + 1 := by
  induction l with
  | nil => rfl
  | cons x xs ih =>
    simp only [insertByCreatedAtDesc]
    split <;> simp [ih]

theorem length_sortByCreatedAtDesc (l : List Candidate) :
    (sortByCreatedAtDesc l).length = l.length := by
  induction l with
  | nil => rfl
  | cons x xs ih => simp [sortByCreatedAtDesc, length_insertByCreatedAtDesc, ih]

/-- C9: getFeatureCandidates returns at most 100 rows for every request
and database, and its result depends only on the type and status
parameters — it reads no limit parameter. -/
theorem getFeatureCandidates_top100 :
    (∀ (reqParams : String → Option String) (db : Db),
      (get_feature_candidates reqParams db).length ≤ 100) ∧
    (∀ (p1 p2 : String → Option String) (db : Db),
      p1 "type" = p2 "type" → p1 "status" = p2 "status" →
      get_feature_candidates p1 db = get_feature_candidates p2 db) := by
  constructor
  · intro reqParams db
    simp only [get_feature_candidates, List.length_map, List.length_take]
    exact min_le_left _ _
  · intro p1 p2 db h1 h2
    simp only [get_feature_candidates, h1, h2]

/-- Witness for getFeatureCandidates_top100 at a concrete database and
two parameter maps differing only in a limit key. -/
theorem getFeatureCandidates_top100_witness :
    (get_feature_candidates (fun _ => none)
        ⟨[⟨"c1", "behavior_feature", "llm", "n", "d", "l", "new", 1, 1⟩], [], []⟩).length
      ≤ 100 ∧
    get_feature_candidates (fun k => if k == "limit" then some "5" else none)
        ⟨[⟨"c1", "behavior_feature", "llm", "n", "d", "l", "new", 1, 1⟩], [], []⟩
      = get_feature_candidates (fun _ => none)
        ⟨[⟨"c1", "behavior_feature", "llm", "n", "d", "l", "new", 1, 1⟩], [], []⟩ :=
  ⟨getFeatureCandidates_top100.1 (fun _ => none)
      ⟨[⟨"c1", "behavior_feature", "llm", "n", "d", "l", "new", 1, 1⟩], [], []⟩,
    getFeatureCandidates_top100.2 (fun k => if k == "limit" then some "5" else none)
      (fun _ => none)
      ⟨[⟨"c1", "behavior_feature", "llm", "n", "d", "l", "new", 1, 1⟩], [], []⟩ rfl rfl⟩

end AitargetApiFunc
